import Mathlib

/-!
Verification of the simxarm task adapter (`lerobot/common/envs/simxarm/simxarm/task/base.py`).

The adapter `Base` subclasses the external `gymnasium_robotics` MuJoCo robot
environment.  We embed its own logic shallowly: scalars are rationals, the
mutable simulation buffers are an explicit `Sim` record, and the external
physics engine (forward kinematics, physics substeps, the observation accessor
and the renderer) is an abstract `Engine` record, since the engine itself is an
external collaborator the adapter only calls into.  Task-specific hooks
(`is_success`, `get_reward`, `_sample_goal`) are abstract in the source and are
passed as a `Hooks` record.
-/

namespace SimXarm

/-- Error kinds of the adapter's error taxonomy: `NotImplemented` for an
abstract hook invoked on the base type, `InvalidAction` for an action failing
the `step` preconditions (shape and action-space membership asserts). -/
inductive PyErr
  | notImplementedError
  | invalidAction
deriving DecidableEq, Repr

/-- A Python value as far as the base hooks are concerned: either nothing
interesting or an exception object used as a value. -/
inductive PyVal
  | noneVal
  | errObj (e : PyErr)
deriving DecidableEq, Repr

/-- A 3-dimensional point or delta. -/
structure Vec3 where
  x : ℚ
  y : ℚ
  z : ℚ
deriving DecidableEq, Repr

/-- The mutable MuJoCo simulation buffers referenced (not owned) by the
adapter: joint positions, joint velocities, the time scalar, the last control
vector forwarded to the mocap actuation interface, the derived site positions
recomputed by `mj_forward`, and the task goal. -/
structure Sim where
  time : ℚ
  qpos : List ℚ
  qvel : List ℚ
  mocap_ctrl : List ℚ
  site_xpos : String → Vec3
  goal : List ℚ

/-- The external physics engine and accessor layer (MuJoCo plus the gymnasium
utils), abstracted: `fk` recomputes site positions from joint positions
(forward kinematics of the joint-driven bodies), `substep` is one physics
integration substep, `joint_addr` resolves a named joint to its `qpos`
address, `get_obs` is the observation accessor (`_get_obs`), and
`render_frame` is the renderer. -/
structure Engine where
  fk : List ℚ → String → Vec3
  substep : Sim → Sim
  joint_addr : String → ℕ
  get_obs : Sim → List ℚ
  render_frame : Sim → String → ℕ → ℕ → List ℚ

/-- Recomputation of the derived kinematic quantities (`mujoco.mj_forward` /
`sim.forward`): the site positions are recomputed from the current joint
positions; nothing is integrated, time and the joint state are untouched. -/
def mjForward (eng : Engine) (s : Sim) : Sim :=
  { s with site_xpos := eng.fk s.qpos }

/-- Task-specific hooks, abstract in `Base` and supplied by a concrete task.
Modelled from the spec: the concrete task implementations are not under src/;
`is_success` and `get_reward` observe the simulation state, and the
goal-sampling hook resamples the task goal as a deterministic function of the
fixed random seed. -/
structure Hooks where
  is_success : Sim → Bool
  get_reward : Sim → ℚ
  sample_goal : ℕ → List ℚ

/-- The task parameters fixed in `Base.__init__`. -/
structure Params where
  gripper_rotation : List ℚ
  center_of_table : Vec3
  max_z : ℚ
  min_z : ℚ
  n_substeps : ℕ
deriving DecidableEq, Repr

/-- `Base.__init__`: the gripper rotation defaults to `[0, 1, 0, 0]`; the
table center is `[1.655, 0.3, 0.63625]`, the z-bounds are `1.2` and `0.2`,
and the superclass is constructed with `n_substeps=20` and `n_actions=4`. -/
def Base.init (gripper_rotation : Option (List ℚ)) : Params :=
  { gripper_rotation := gripper_rotation.getD [0, 1, 0, 0]
    center_of_table := ⟨1655/1000, 3/10, 63625/100000⟩
    max_z := 12/10
    min_z := 2/10
    n_substeps := 20 }

/-- The action dimension declared to the superclass (`n_actions=4`). -/
def Base.n_actions : ℕ := 4

/-- The whole environment object: constructor-set parameters, the random
seed used for goal sampling, the initial configuration captured at
construction, the referenced simulation buffers, the viewer window handle and
viewer cache, and the renderer dimension overrides. -/
structure Env where
  params : Params
  seed : ℕ
  initial_time : ℚ
  initial_qpos : List ℚ
  initial_qvel : List ℚ
  sim : Sim
  viewer : Option ℕ
  viewers : List (String × ℕ)
  offwidth : ℕ
  offheight : ℕ

/-- `Base.eef`: the position of the "grasp" site read from the derived
buffers. -/
def Base.eef (e : Env) : Vec3 :=
  e.sim.site_xpos "grasp"

/-- `Base.robot_state`: the end-effector position concatenated with the
"right_outer_knuckle_joint" angle read from `qpos`. -/
def Base.robot_state (eng : Engine) (e : Env) : Vec3 × ℚ :=
  (Base.eef e, e.sim.qpos.getD (eng.joint_addr "right_outer_knuckle_joint") 0)

/-- `Base.is_success` exactly as written in the source: the body is
`return NotImplementedError()` — it returns the exception object instead of
raising it, so the call succeeds and yields a (truthy) exception value. -/
def Base.is_successBase : Except PyErr PyVal :=
  Except.ok (PyVal.errObj PyErr.notImplementedError)

/-- `Base.get_reward` as written: `raise NotImplementedError()`. -/
def Base.get_rewardBase : Except PyErr PyVal :=
  Except.error PyErr.notImplementedError

/-- `Base._sample_goal` as written: `raise NotImplementedError()`. -/
def Base.sample_goalBase : Except PyErr PyVal :=
  Except.error PyErr.notImplementedError

/-- One axis of `Base._limit_gripper`: the source's two sequential `if`
statements for the axis — above the upper bound the commanded delta is
replaced by `min(delta, 0)`, then, below the lower bound, by
`max(delta, 0)`. -/
def limitAxis (hi lo pos ctrl : ℚ) : ℚ :=
  let c := if pos > hi then min ctrl 0 else ctrl
  if pos < lo then max c 0 else c

/-- `Base._limit_gripper`: per-axis delta clamping against the workspace
bounds, with the source's literal bound expressions (x upper
`center_x - 0.105 + 0.15`, x lower `center_x - 0.105 - 0.3`, y bounds
`center_y ± 0.3`, z bounds `max_z` and `min_z`). -/
def Base.limit_gripper (p : Params) (gripper_pos pos_ctrl : Vec3) : Vec3 :=
  ⟨limitAxis (p.center_of_table.x - 105/1000 + 15/100)
      (p.center_of_table.x - 105/1000 - 3/10) gripper_pos.x pos_ctrl.x,
   limitAxis (p.center_of_table.y + 3/10) (p.center_of_table.y - 3/10)
      gripper_pos.y pos_ctrl.y,
   limitAxis p.max_z p.min_z gripper_pos.z pos_ctrl.z⟩

/-- Modelled from the spec: `mocap.apply_action` (task/mocap.py, which is not
under src/) forwards the concatenated control vector to the mocap actuation
interface; modelled as recording the forwarded vector in the simulation
state. -/
def mocapApplyAction (s : Sim) (ctrl : List ℚ) : Sim :=
  { s with mocap_ctrl := ctrl }

/-- `Base._apply_action` on a 4-component action: split into position control
and gripper control, clamp the position control through `_limit_gripper` at
the current "grasp" site position, scale by `1 / n_substeps`, duplicate the
gripper scalar into a pair, and forward the concatenation
position ++ gripper_rotation ++ gripper pair to the mocap interface. -/
def Base.apply_action (p : Params) (s : Sim) (action : List ℚ) : Sim :=
  let pos_ctrl : Vec3 := ⟨action.getD 0 0, action.getD 1 0, action.getD 2 0⟩
  let gripper_ctrl : ℚ := action.getD 3 0
  let limited := Base.limit_gripper p (s.site_xpos "grasp") pos_ctrl
  let scale : ℚ := 1 / (p.n_substeps : ℚ)
  mocapApplyAction s
    ([limited.x * scale, limited.y * scale, limited.z * scale]
      ++ p.gripper_rotation ++ [gripper_ctrl, gripper_ctrl])

/-- The `info` dictionary returned by `step`, with the deliberately
duplicated keys. -/
structure StepInfo where
  is_success : Bool
  success : Bool
deriving DecidableEq, Repr

/-- The tuple returned by `step`. -/
structure StepResult where
  obs : List ℚ
  reward : ℚ
  done : Bool
  info : StepInfo
deriving DecidableEq, Repr

/-- Membership in the action space declared by the external superclass
(`gymnasium_robotics` `MujocoRobotEnv` with `n_actions=4` declares
`Box(-1, 1, shape=(4,))`): every component lies in `[-1, 1]`.  The shape
itself is asserted separately by `step`. -/
def actionSpaceContains (a : List ℚ) : Bool :=
  a.all fun v => decide (-1 ≤ v) && decide (v ≤ 1)

/-- The body of `Base.step` after its two assertions: apply the action,
advance two physics substeps, run the step callback (`sim.forward`), then
build the observation, reward, done flag and info dictionary. -/
def Base.stepValid (eng : Engine) (hooks : Hooks) (e : Env) (action : List ℚ) :
    StepResult × Env :=
  let s := Base.apply_action e.params e.sim action
  let s := eng.substep (eng.substep s)
  let s := mjForward eng s
  let succ := hooks.is_success s
  ({ obs := eng.get_obs s
     reward := hooks.get_reward s
     done := false
     info := { is_success := succ, success := succ } },
   { e with sim := s })

/-- `Base.step`: asserts `action.shape == (4,)` and membership of the
declared action space (the spec's `InvalidAction` failures), then runs the
step body. -/
def Base.step (eng : Engine) (hooks : Hooks) (e : Env) (action : List ℚ) :
    Except PyErr (StepResult × Env) :=
  if action.length ≠ 4 then Except.error PyErr.invalidAction
  else if actionSpaceContains action then Except.ok (Base.stepValid eng hooks e action)
  else Except.error PyErr.invalidAction

/-- The `done` component of a `step` outcome, when the call succeeded. -/
def stepDone : Except PyErr (StepResult × Env) → Option Bool
  | Except.ok (r, _) => some r.done
  | Except.error _ => none

/-- `Base._reset_sim`: restore `time`, `qpos` and `qvel` to the initial
configuration, resample the task goal via the task hook, then run 10
`mj_forward` settle iterations with no control input. -/
def Base.reset_sim (eng : Engine) (hooks : Hooks) (e : Env) : Env :=
  let s := { e.sim with
             time := e.initial_time
             qpos := e.initial_qpos
             qvel := e.initial_qvel }
  let s := { s with goal := hooks.sample_goal e.seed }
  { e with sim := (mjForward eng)^[10] s }

/-- `Base.reset`: `_reset_sim` followed by `_get_obs`. -/
def Base.reset (eng : Engine) (hooks : Hooks) (e : Env) : List ℚ × Env :=
  let e2 := Base.reset_sim eng hooks e
  (eng.get_obs e2.sim, e2)

/-- `Base.render`: `_render_callback` (an `mj_forward`), override the
renderer dimensions, then delegate to the renderer. -/
def Base.render (eng : Engine) (e : Env) (mode : String) (width height : ℕ) :
    List ℚ × Env :=
  let e2 := { e with sim := mjForward eng e.sim, offwidth := width, offheight := height }
  (eng.render_frame e2.sim mode e2.offwidth e2.offheight, e2)

/-- `Base.close`: if a viewer window exists, destroy it (the returned list
holds the handles of the windows destroyed by the call) and clear the
reference; in all cases empty the viewer cache. -/
def Base.close (e : Env) : Env × List ℕ :=
  match e.viewer with
  | some w => ({ e with viewer := none, viewers := [] }, [w])
  | none => ({ e with viewers := [] }, [])

/-- One call of the public lifecycle surface. -/
inductive Op
  | doStep (action : List ℚ)
  | doReset
  | doRender (mode : String) (width height : ℕ)
  | doClose

/-- The environment state after one lifecycle call (a failing `step` leaves
the environment unchanged). -/
def applyOp (eng : Engine) (hooks : Hooks) (e : Env) : Op → Env
  | Op.doStep a =>
    match Base.step eng hooks e a with
    | Except.ok (_, e2) => e2
    | Except.error _ => e
  | Op.doReset => (Base.reset eng hooks e).2
  | Op.doRender m w h => (Base.render eng e m w h).2
  | Op.doClose => (Base.close e).1

/-- The environment state after a sequence of lifecycle calls. -/
def runOps (eng : Engine) (hooks : Hooks) (e : Env) (ops : List Op) : Env :=
  ops.foldl (applyOp eng hooks) e

/-- A heap of numpy arrays, making aliasing and in-place mutation explicit:
ids below `next` are the allocated arrays. -/
structure Store where
  arrs : ℕ → List ℚ
  next : ℕ

/-- Read the contents of an array. -/
def Store.read (st : Store) (i : ℕ) : List ℚ :=
  st.arrs i

/-- Overwrite the contents of an array in place. -/
def Store.write (st : Store) (i : ℕ) (v : List ℚ) : Store :=
  { st with arrs := fun j => if j = i then v else st.arrs j }

/-- Allocation of a fresh array (`ndarray.copy()` allocates one holding the
same contents). -/
def Store.alloc (st : Store) (v : List ℚ) : Store × ℕ :=
  ({ arrs := fun j => if j = st.next then v else st.arrs j, next := st.next + 1 },
   st.next)

/-- `Base._limit_gripper` at the array level, exactly as written: six
sequential `if` statements mutating the first three entries of the argument
array in place. -/
def Base.limit_gripper_store (p : Params) (gpos : Vec3) (st : Store) (i : ℕ) :
    Store :=
  let a := st.read i
  let a := if gpos.x > p.center_of_table.x - 105/1000 + 15/100 then
      a.set 0 (min (a.getD 0 0) 0) else a
  let a := if gpos.x < p.center_of_table.x - 105/1000 - 3/10 then
      a.set 0 (max (a.getD 0 0) 0) else a
  let a := if gpos.y > p.center_of_table.y + 3/10 then
      a.set 1 (min (a.getD 1 0) 0) else a
  let a := if gpos.y < p.center_of_table.y - 3/10 then
      a.set 1 (max (a.getD 1 0) 0) else a
  let a := if gpos.z > p.max_z then a.set 2 (min (a.getD 2 0) 0) else a
  let a := if gpos.z < p.min_z then a.set 2 (max (a.getD 2 0) 0) else a
  st.write i a

/-- `Base._apply_action` at the array level: `action = action.copy()`
allocates a fresh array; `pos_ctrl` is a view of the copy's first three
entries, mutated in place by `_limit_gripper`; the scaled product and the
concatenation allocate fresh values.  Returns the store and the updated
simulation state. -/
def Base.apply_action_store (p : Params) (s : Sim) (st : Store) (action : ℕ) :
    Store × Sim :=
  let alloc := st.alloc (st.read action)
  let st2 := alloc.1
  let copyId := alloc.2
  let st3 := Base.limit_gripper_store p (s.site_xpos "grasp") st2 copyId
  let l := st3.read copyId
  let scale : ℚ := 1 / (p.n_substeps : ℚ)
  (st3,
   mocapApplyAction s
     ([l.getD 0 0 * scale, l.getD 1 0 * scale, l.getD 2 0 * scale]
       ++ p.gripper_rotation ++ [l.getD 3 0, l.getD 3 0]))

/-- `Base.step` at the array level: the caller's action array is passed by
reference into `_apply_action`. -/
def Base.step_store (eng : Engine) (hooks : Hooks) (e : Env) (st : Store)
    (action : ℕ) : Except PyErr (StepResult × Env) × Store :=
  let a := st.read action
  if a.length ≠ 4 then (Except.error PyErr.invalidAction, st)
  else if actionSpaceContains a then
    let pair := Base.apply_action_store e.params e.sim st action
    let s := mjForward eng (eng.substep (eng.substep pair.2))
    let succ := hooks.is_success s
    (Except.ok
      ({ obs := eng.get_obs s
         reward := hooks.get_reward s
         done := false
         info := { is_success := succ, success := succ } },
       { e with sim := s }),
     pair.1)
  else (Except.error PyErr.invalidAction, st)

/-- A trivial engine instance for concrete evaluation. -/
def eng0 : Engine :=
  { fk := fun _ _ => ⟨0, 0, 0⟩
    substep := id
    joint_addr := fun _ => 0
    get_obs := fun s => s.qpos
    render_frame := fun _ _ _ _ => [] }

/-- A trivial simulation state for concrete evaluation. -/
def sim0 : Sim :=
  { time := 0
    qpos := [0, 0, 0, 0]
    qvel := [0, 0, 0, 0]
    mocap_ctrl := []
    site_xpos := fun _ => ⟨0, 0, 0⟩
    goal := [] }

/-- Trivial hooks for concrete evaluation. -/
def hooks0 : Hooks :=
  { is_success := fun _ => false
    get_reward := fun _ => 0
    sample_goal := fun _ => [0] }

/-- A concrete environment for concrete evaluation. -/
def env0 : Env :=
  { params := Base.init none
    seed := 0
    initial_time := 0
    initial_qpos := [0, 0, 0, 0]
    initial_qvel := [0, 0, 0, 0]
    sim := sim0
    viewer := some 7
    viewers := [("human", 7)]
    offwidth := 384
    offheight := 384 }

/-- A concrete array store for concrete evaluation: one allocated array. -/
def store0 : Store :=
  { arrs := fun _ => [1, 0, -1, 1], next := 1 }

/-- Behaviour of one axis of the limiter, provided the lower bound lies below
the upper bound (so the two sequential clamps cannot both fire). -/
theorem limitAxis_spec (hi lo pos ctrl : ℚ) (hlohi : lo < hi) :
    (pos > hi → limitAxis hi lo pos ctrl = min ctrl 0) ∧
    (pos < lo → limitAxis hi lo pos ctrl = max ctrl 0) ∧
    (¬ pos > hi → ¬ pos < lo → limitAxis hi lo pos ctrl = ctrl) := by
  refine ⟨fun h => ?_, fun h => ?_, fun h1 h2 => ?_⟩
  · have h2 : ¬ pos < lo := by linarith
    simp [limitAxis, h, h2]
  · have h2 : ¬ pos > hi := by linarith
    simp [limitAxis, h, h2]
  · simp [limitAxis, h1, h2]

/-- Iterated `mj_forward` never changes the integrated state, only the
derived site positions. -/
theorem mjForward_iter_fields (eng : Engine) (n : ℕ) (s : Sim) :
    ((mjForward eng)^[n] s).qpos = s.qpos ∧ ((mjForward eng)^[n] s).qvel = s.qvel ∧
    ((mjForward eng)^[n] s).time = s.time ∧ ((mjForward eng)^[n] s).goal = s.goal := by
  induction n with
  | zero => exact ⟨rfl, rfl, rfl, rfl⟩
  | succ n ih =>
    rw [Function.iterate_succ_apply']
    exact ⟨ih.1, ih.2.1, ih.2.2.1, ih.2.2.2⟩

/-- After at least one `mj_forward`, the site positions are the forward
kinematics of the (unchanged) joint positions. -/
theorem mjForward_iter_site (eng : Engine) (n : ℕ) (s : Sim) :
    ((mjForward eng)^[n + 1] s).site_xpos = eng.fk s.qpos := by
  rw [Function.iterate_succ_apply']
  show eng.fk ((mjForward eng)^[n] s).qpos = eng.fk s.qpos
  rw [(mjForward_iter_fields eng n s).1]

/-- The simulation state produced by `_reset_sim`, flattened. -/
theorem reset_sim_sim (eng : Engine) (hooks : Hooks) (e : Env) :
    (Base.reset_sim eng hooks e).sim =
      (mjForward eng)^[10]
        { e.sim with
          time := e.initial_time
          qpos := e.initial_qpos
          qvel := e.initial_qvel
          goal := hooks.sample_goal e.seed } := rfl

/-- The robot state read immediately after `reset` is a function of the
initial joint configuration alone. -/
theorem robot_state_after_reset (eng : Engine) (hooks : Hooks) (e : Env) :
    Base.robot_state eng (Base.reset eng hooks e).2 =
      (eng.fk e.initial_qpos "grasp",
       e.initial_qpos.getD (eng.joint_addr "right_outer_knuckle_joint") 0) := by
  have hsim : (Base.reset eng hooks e).2.sim =
      (mjForward eng)^[10]
        { e.sim with
          time := e.initial_time
          qpos := e.initial_qpos
          qvel := e.initial_qvel
          goal := hooks.sample_goal e.seed } := rfl
  unfold Base.robot_state Base.eef
  rw [hsim, (mjForward_iter_fields eng 10 _).1]
  have hsite := mjForward_iter_site eng 9
      { e.sim with
        time := e.initial_time
        qpos := e.initial_qpos
        qvel := e.initial_qvel
        goal := hooks.sample_goal e.seed }
  rw [show (9 : ℕ) + 1 = 10 from rfl] at hsite
  rw [hsite]

/-- A successful `step` only replaces the simulation buffers: the
constructor-set parameters, seed and initial configuration carry over. -/
theorem step_ok_frame (eng : Engine) (hooks : Hooks) (e : Env) (action : List ℚ)
    {r : StepResult} {e2 : Env}
    (h : Base.step eng hooks e action = Except.ok (r, e2)) :
    e2.params = e.params ∧ e2.seed = e.seed ∧ e2.initial_time = e.initial_time ∧
    e2.initial_qpos = e.initial_qpos ∧ e2.initial_qvel = e.initial_qvel ∧
    e2.viewer = e.viewer ∧ e2.viewers = e.viewers := by
  unfold Base.step at h
  split at h
  · cases h
  · split at h
    · injection h with h2
      have he : e2 = (Base.stepValid eng hooks e action).2 := by
        have := congrArg Prod.snd h2
        exact this.symm
      subst he
      exact ⟨rfl, rfl, rfl, rfl, rfl, rfl, rfl⟩
    · cases h

/-- Every lifecycle call preserves the constructor-set parameters, the seed
and the initial configuration. -/
theorem applyOp_frame (eng : Engine) (hooks : Hooks) (e : Env) (op : Op) :
    (applyOp eng hooks e op).params = e.params ∧
    (applyOp eng hooks e op).seed = e.seed ∧
    (applyOp eng hooks e op).initial_time = e.initial_time ∧
    (applyOp eng hooks e op).initial_qpos = e.initial_qpos ∧
    (applyOp eng hooks e op).initial_qvel = e.initial_qvel := by
  cases op with
  | doStep a =>
    dsimp only [applyOp]
    cases h : Base.step eng hooks e a with
    | ok v =>
      obtain ⟨r, e2⟩ := v
      have hf := step_ok_frame eng hooks e a h
      exact ⟨hf.1, hf.2.1, hf.2.2.1, hf.2.2.2.1, hf.2.2.2.2.1⟩
    | error err => exact ⟨rfl, rfl, rfl, rfl, rfl⟩
  | doReset => exact ⟨rfl, rfl, rfl, rfl, rfl⟩
  | doRender m w hgt => exact ⟨rfl, rfl, rfl, rfl, rfl⟩
  | doClose =>
    cases hv : e.viewer <;> simp [applyOp, Base.close, hv]

/-- Sequences of lifecycle calls preserve the constructor-set parameters, the
seed and the initial configuration. -/
theorem runOps_frame (eng : Engine) (hooks : Hooks) (ops : List Op) (e : Env) :
    (runOps eng hooks e ops).params = e.params ∧
    (runOps eng hooks e ops).seed = e.seed ∧
    (runOps eng hooks e ops).initial_time = e.initial_time ∧
    (runOps eng hooks e ops).initial_qpos = e.initial_qpos ∧
    (runOps eng hooks e ops).initial_qvel = e.initial_qvel := by
  induction ops generalizing e with
  | nil => exact ⟨rfl, rfl, rfl, rfl, rfl⟩
  | cons op ops ih =>
    have h1 := applyOp_frame eng hooks e op
    have h2 := ih (applyOp eng hooks e op)
    exact ⟨h2.1.trans h1.1, h2.2.1.trans h1.2.1, h2.2.2.1.trans h1.2.2.1,
           h2.2.2.2.1.trans h1.2.2.2.1, h2.2.2.2.2.trans h1.2.2.2.2⟩

/-- C1: the three abstract hooks of the base type.  `get_reward` and
`_sample_goal` raise `NotImplementedError`, but `is_success` as written is
`return NotImplementedError()` — the call succeeds and yields the exception
object as a value instead of raising, contradicting the documented
behaviour. -/
theorem C1_base_hook_divergence :
    Base.is_successBase = Except.ok (PyVal.errObj PyErr.notImplementedError) ∧
    Base.get_rewardBase = Except.error PyErr.notImplementedError ∧
    Base.sample_goalBase = Except.error PyErr.notImplementedError :=
  ⟨rfl, rfl, rfl⟩

/-- C2: per-axis behaviour of the workspace-limiting policy: on each axis the
requested delta is clamped to `min(d, 0)` above the upper bound (hence is
nonpositive), to `max(d, 0)` below the lower bound (hence is nonnegative),
and is passed through unchanged otherwise; the bound expressions simplify to
x in [centerX − 0.405, centerX + 0.045], y in [centerY − 0.3, centerY + 0.3],
z in [0.2, 1.2]. -/
theorem C2_limit_gripper_policy (gr : Option (List ℚ)) (gpos d : Vec3) :
    (gpos.x > (Base.init gr).center_of_table.x - 105/1000 + 15/100 →
      (Base.limit_gripper (Base.init gr) gpos d).x = min d.x 0 ∧
      (Base.limit_gripper (Base.init gr) gpos d).x ≤ 0) ∧
    (gpos.x < (Base.init gr).center_of_table.x - 105/1000 - 3/10 →
      (Base.limit_gripper (Base.init gr) gpos d).x = max d.x 0 ∧
      0 ≤ (Base.limit_gripper (Base.init gr) gpos d).x) ∧
    (¬ gpos.x > (Base.init gr).center_of_table.x - 105/1000 + 15/100 →
      ¬ gpos.x < (Base.init gr).center_of_table.x - 105/1000 - 3/10 →
      (Base.limit_gripper (Base.init gr) gpos d).x = d.x) ∧
    (gpos.y > (Base.init gr).center_of_table.y + 3/10 →
      (Base.limit_gripper (Base.init gr) gpos d).y = min d.y 0 ∧
      (Base.limit_gripper (Base.init gr) gpos d).y ≤ 0) ∧
    (gpos.y < (Base.init gr).center_of_table.y - 3/10 →
      (Base.limit_gripper (Base.init gr) gpos d).y = max d.y 0 ∧
      0 ≤ (Base.limit_gripper (Base.init gr) gpos d).y) ∧
    (¬ gpos.y > (Base.init gr).center_of_table.y + 3/10 →
      ¬ gpos.y < (Base.init gr).center_of_table.y - 3/10 →
      (Base.limit_gripper (Base.init gr) gpos d).y = d.y) ∧
    (gpos.z > (Base.init gr).max_z →
      (Base.limit_gripper (Base.init gr) gpos d).z = min d.z 0 ∧
      (Base.limit_gripper (Base.init gr) gpos d).z ≤ 0) ∧
    (gpos.z < (Base.init gr).min_z →
      (Base.limit_gripper (Base.init gr) gpos d).z = max d.z 0 ∧
      0 ≤ (Base.limit_gripper (Base.init gr) gpos d).z) ∧
    (¬ gpos.z > (Base.init gr).max_z → ¬ gpos.z < (Base.init gr).min_z →
      (Base.limit_gripper (Base.init gr) gpos d).z = d.z) ∧
    (Base.init gr).center_of_table.x - 105/1000 + 15/100 =
      (Base.init gr).center_of_table.x + 45/1000 ∧
    (Base.init gr).center_of_table.x - 105/1000 - 3/10 =
      (Base.init gr).center_of_table.x - 405/1000 ∧
    (Base.init gr).max_z = 12/10 ∧ (Base.init gr).min_z = 2/10 := by
  have hx := limitAxis_spec ((Base.init gr).center_of_table.x - 105/1000 + 15/100)
    ((Base.init gr).center_of_table.x - 105/1000 - 3/10) gpos.x d.x (by linarith)
  have hy := limitAxis_spec ((Base.init gr).center_of_table.y + 3/10)
    ((Base.init gr).center_of_table.y - 3/10) gpos.y d.y (by linarith)
  have hz := limitAxis_spec (Base.init gr).max_z (Base.init gr).min_z gpos.z d.z
    (by norm_num [Base.init])
  refine ⟨fun h => ?_, fun h => ?_, hx.2.2, fun h => ?_, fun h => ?_, hy.2.2,
    fun h => ?_, fun h => ?_, hz.2.2, by ring, by ring, rfl, rfl⟩
  · have hh : (Base.limit_gripper (Base.init gr) gpos d).x = min d.x 0 := hx.1 h
    refine ⟨hh, ?_⟩
    rw [hh]
    exact min_le_right d.x 0
  · have hh : (Base.limit_gripper (Base.init gr) gpos d).x = max d.x 0 := hx.2.1 h
    refine ⟨hh, ?_⟩
    rw [hh]
    exact le_max_right d.x 0
  · have hh : (Base.limit_gripper (Base.init gr) gpos d).y = min d.y 0 := hy.1 h
    refine ⟨hh, ?_⟩
    rw [hh]
    exact min_le_right d.y 0
  · have hh : (Base.limit_gripper (Base.init gr) gpos d).y = max d.y 0 := hy.2.1 h
    refine ⟨hh, ?_⟩
    rw [hh]
    exact le_max_right d.y 0
  · have hh : (Base.limit_gripper (Base.init gr) gpos d).z = min d.z 0 := hz.1 h
    refine ⟨hh, ?_⟩
    rw [hh]
    exact min_le_right d.z 0
  · have hh : (Base.limit_gripper (Base.init gr) gpos d).z = max d.z 0 := hz.2.1 h
    refine ⟨hh, ?_⟩
    rw [hh]
    exact le_max_right d.z 0

/-- C2 witness: at the concrete position (2, 2, 2), which exceeds every upper
bound, the requested delta (1/2, −1/3, 1/4) is clamped on the x axis to
`min(1/2, 0) = 0`, which is nonpositive. -/
theorem C2_limit_gripper_policy_witness :
    ((2:ℚ) > (Base.init none).center_of_table.x - 105/1000 + 15/100) ∧
    (Base.limit_gripper (Base.init none) ⟨2, 2, 2⟩ ⟨1/2, -1/3, 1/4⟩).x =
      min (1/2 : ℚ) 0 ∧
    (Base.limit_gripper (Base.init none) ⟨2, 2, 2⟩ ⟨1/2, -1/3, 1/4⟩).x ≤ 0 := by
  have hcond : ((2:ℚ) > (Base.init none).center_of_table.x - 105/1000 + 15/100) := by
    norm_num [Base.init]
  have h := C2_limit_gripper_policy none ⟨2, 2, 2⟩ ⟨1/2, -1/3, 1/4⟩
  exact ⟨hcond, (h.1 hcond).1, (h.1 hcond).2⟩

/-- C3: for every valid 4-component action within the declared action-space
bounds, `step` returns a tuple whose `done` component is false, regardless of
the simulation state, the engine and the hooks. -/
theorem C3_step_done_false (eng : Engine) (hooks : Hooks) (e : Env)
    (action : List ℚ) (hlen : action.length = 4)
    (hbox : actionSpaceContains action = true) :
    stepDone (Base.step eng hooks e action) = some false := by
  unfold Base.step
  rw [if_neg (by simp [hlen]), if_pos hbox]
  rfl

/-- C3 witness: a concrete valid action on a concrete environment. -/
theorem C3_step_done_false_witness :
    ([0, 0, 0, (1:ℚ)].length = 4) ∧
    actionSpaceContains [0, 0, 0, (1:ℚ)] = true ∧
    stepDone (Base.step eng0 hooks0 env0 [0, 0, 0, 1]) = some false :=
  ⟨rfl, by decide, C3_step_done_false eng0 hooks0 env0 [0, 0, 0, 1] rfl (by decide)⟩

/-- C4: an action of the wrong shape, or outside the declared bounded action
space, makes `step` fail with `InvalidAction` rather than truncating, padding
or proceeding. -/
theorem C4_step_invalid_action (eng : Engine) (hooks : Hooks) (e : Env)
    (action : List ℚ)
    (h : action.length ≠ 4 ∨ actionSpaceContains action = false) :
    Base.step eng hooks e action = Except.error PyErr.invalidAction := by
  unfold Base.step
  by_cases hl : action.length = 4
  · rcases h with h | h
    · exact absurd hl h
    · rw [if_neg (by simp [hl]), if_neg (by simp [h])]
  · rw [if_pos hl]

/-- C4 witness: a 1-component action fails with `InvalidAction`. -/
theorem C4_step_invalid_action_witness :
    (([(0:ℚ)].length ≠ 4) ∨ actionSpaceContains [(0:ℚ)] = false) ∧
    Base.step eng0 hooks0 env0 [0] = Except.error PyErr.invalidAction :=
  ⟨Or.inl (by decide),
   C4_step_invalid_action eng0 hooks0 env0 [0] (Or.inl (by decide))⟩

/-- C5: the control vector forwarded to the mocap actuation interface is the
workspace-limited first three components of the action scaled by
`1/n_substeps`, followed by the fixed gripper rotation quaternion, followed by
the fourth component duplicated into a pair; with the 4-component rotation it
has 9 components. -/
theorem C5_forwarded_control (p : Params) (s : Sim) (a0 a1 a2 a3 : ℚ)
    (hrot : p.gripper_rotation.length = 4) :
    (Base.apply_action p s [a0, a1, a2, a3]).mocap_ctrl =
      [(Base.limit_gripper p (s.site_xpos "grasp") ⟨a0, a1, a2⟩).x * (1 / (p.n_substeps : ℚ)),
       (Base.limit_gripper p (s.site_xpos "grasp") ⟨a0, a1, a2⟩).y * (1 / (p.n_substeps : ℚ)),
       (Base.limit_gripper p (s.site_xpos "grasp") ⟨a0, a1, a2⟩).z * (1 / (p.n_substeps : ℚ))]
      ++ p.gripper_rotation ++ [a3, a3] ∧
    (Base.apply_action p s [a0, a1, a2, a3]).mocap_ctrl.length = 9 := by
  constructor
  · rfl
  · simp [Base.apply_action, mocapApplyAction, hrot]

/-- C5 witness: with the default gripper rotation the forwarded vector has 9
components. -/
theorem C5_forwarded_control_witness :
    (Base.init none).gripper_rotation.length = 4 ∧
    (Base.apply_action (Base.init none) sim0 [1, 1, 1, (1:ℚ)]).mocap_ctrl.length = 9 :=
  ⟨rfl, (C5_forwarded_control (Base.init none) sim0 1 1 1 1 rfl).2⟩

/-- C6: `reset` restores the joint positions, joint velocities and the time
scalar to their initial values, resamples the goal via the task-specific
hook, settles through exactly 10 `mj_forward` iterations with no control
input, and returns the observation of the resulting state; it is a total
function of the supplied hooks (no failure path of its own). -/
theorem C6_reset_behaviour (eng : Engine) (hooks : Hooks) (e : Env) :
    (Base.reset eng hooks e).2.sim.qpos = e.initial_qpos ∧
    (Base.reset eng hooks e).2.sim.qvel = e.initial_qvel ∧
    (Base.reset eng hooks e).2.sim.time = e.initial_time ∧
    (Base.reset eng hooks e).2.sim.goal = hooks.sample_goal e.seed ∧
    (Base.reset eng hooks e).2.sim =
      (mjForward eng)^[10]
        { e.sim with
          time := e.initial_time
          qpos := e.initial_qpos
          qvel := e.initial_qvel
          goal := hooks.sample_goal e.seed } ∧
    (Base.reset eng hooks e).1 = eng.get_obs (Base.reset eng hooks e).2.sim := by
  have hb := mjForward_iter_fields eng 10
    { e.sim with
      time := e.initial_time
      qpos := e.initial_qpos
      qvel := e.initial_qvel
      goal := hooks.sample_goal e.seed }
  have hs : (Base.reset eng hooks e).2.sim =
      (mjForward eng)^[10]
        { e.sim with
          time := e.initial_time
          qpos := e.initial_qpos
          qvel := e.initial_qvel
          goal := hooks.sample_goal e.seed } := rfl
  refine ⟨?_, ?_, ?_, ?_, hs, rfl⟩
  · rw [hs]
    exact hb.1
  · rw [hs]
    exact hb.2.1
  · rw [hs]
    exact hb.2.2.1
  · rw [hs]
    exact hb.2.2.2

/-- C7: `close` is idempotent: the second of two successive calls does not
error (it is a total function), destroys no window, and leaves the state
unchanged; after the first call the viewer reference is cleared and the
viewer cache is emptied, so the second call's destroy branch is not taken. -/
theorem C7_close_idempotent (e : Env) :
    (Base.close (Base.close e).1).1 = (Base.close e).1 ∧
    (Base.close (Base.close e).1).2 = [] ∧
    (Base.close e).1.viewer = none ∧
    (Base.close e).1.viewers = [] := by
  cases hv : e.viewer <;> simp [Base.close, hv]

/-- C8: two-run determinism of `reset`: whatever two sequences of lifecycle
calls were executed before, starting from the same initial configuration and
the same fixed goal-sampling seed, `reset` followed immediately by reading
`robot_state` yields the same state in both runs. -/
theorem C8_reset_determinism (eng : Engine) (hooks : Hooks) (e : Env)
    (ops1 ops2 : List Op) :
    Base.robot_state eng (Base.reset eng hooks (runOps eng hooks e ops1)).2 =
      Base.robot_state eng (Base.reset eng hooks (runOps eng hooks e ops2)).2 := by
  rw [robot_state_after_reset, robot_state_after_reset,
      (runOps_frame eng hooks ops1 e).2.2.2.1,
      (runOps_frame eng hooks ops2 e).2.2.2.1]

/-- C9: the constructor-set parameters — the gripper rotation quaternion, the
table center and the z-bounds constants — are never modified by any sequence
of step, reset, render and close calls. -/
theorem C9_params_immutable (eng : Engine) (hooks : Hooks) (e : Env)
    (ops : List Op) :
    (runOps eng hooks e ops).params.gripper_rotation = e.params.gripper_rotation ∧
    (runOps eng hooks e ops).params.center_of_table = e.params.center_of_table ∧
    (runOps eng hooks e ops).params.max_z = e.params.max_z ∧
    (runOps eng hooks e ops).params.min_z = e.params.min_z := by
  rw [(runOps_frame eng hooks ops e).1]
  exact ⟨rfl, rfl, rfl, rfl⟩

/-- All array mutation inside `_apply_action` happens on the freshly
allocated copy, so every previously allocated array is untouched. -/
theorem apply_action_store_frame (p : Params) (s : Sim) (st : Store) (i j : ℕ)
    (hj : j ≠ st.next) :
    (Base.apply_action_store p s st i).1.read j = st.read j := by
  unfold Base.apply_action_store Base.limit_gripper_store Store.alloc Store.write
    Store.read
  simp [hj]

/-- C10: `step` never mutates the caller's action array: the implementation
copies the array before the in-place clamping mutation, so after the call the
caller's array holds the same values as before. -/
theorem C10_step_preserves_caller_action (eng : Engine) (hooks : Hooks)
    (e : Env) (st : Store) (i : ℕ) (hi : i < st.next)
    (hlen : (st.read i).length = 4)
    (hbox : actionSpaceContains (st.read i) = true) :
    (Base.step_store eng hooks e st i).2.read i = st.read i := by
  unfold Base.step_store
  rw [if_neg (by simp [hlen]), if_pos hbox]
  show (Base.apply_action_store e.params e.sim st i).1.read i = st.read i
  exact apply_action_store_frame e.params e.sim st i i (Nat.ne_of_lt hi)

/-- C10 witness: a concrete allocated action array is unchanged by a concrete
valid `step`. -/
theorem C10_step_preserves_caller_action_witness :
    0 < store0.next ∧ (store0.read 0).length = 4 ∧
    actionSpaceContains (store0.read 0) = true ∧
    (Base.step_store eng0 hooks0 env0 store0 0).2.read 0 = store0.read 0 :=
  ⟨by decide, by decide, by decide,
   C10_step_preserves_caller_action eng0 hooks0 env0 store0 0 (by decide)
     (by decide) (by decide)⟩

end SimXarm
